import Mathlib

/-!
Shallow embedding of `splugh/__main__.py` (the single source file of the
`splugh` repository) together with proofs about the claims of its
specification.

Modelling conventions:
* Raw structured data (the result of `json.load` / `yaml.safe_load`) is the
  inductive type `Raw`.
* Marshmallow schema loading (`ConfigSchema.load`) is the computable function
  `loadConfig : Raw → Except (List FieldErr) Config`; a `ValidationError`
  carrying `err.messages` is the `.error` case, a list of structured
  field-level errors.
* Python lookups that may raise `KeyError` (`parse_ext_to_format`,
  the parser selector `getConfigParser`) return `Option`; `none` models the raised `KeyError`.
* The effectful CLI driver `main` is embedded as a function from the parsed
  arguments and an environment (cwd, whether the resolved output directory
  exists, the deserialized contents of the source file) to the ordered list of
  side-effect events it performs together with its outcome (a returned exit
  code, or an uncaught `KeyError` / `IndexError` escaping the process).
* `os.path.abspath` / `os.path.join` are modelled as plain path
  concatenation; no claim depends on path normalization.
-/

namespace Splugh

/-- Raw structured data as produced by `json.load` or `yaml.safe_load`
(`ConfigObjT` in the source): nested string-keyed mappings, lists and
scalars. -/
inductive Raw where
  | str (s : String)
  | int (n : Int)
  | list (xs : List Raw)
  | dict (kvs : List (String × Raw))
  | null
  deriving Repr

/-- Mapping lookup, `d[k]` on a dict raw value: `none` both for a missing key
and for a non-mapping value. -/
def Raw.get? (r : Raw) (k : String) : Option Raw :=
  match r with
  | .dict kvs => kvs.lookup k
  | _ => none

/-- A navigation entry: the `Page` dataclass of the source
(`title`, `href`, and a `shortcut` constrained by
`marshmallow.validate.Length(equal=1)`). -/
structure Page where
  title : String
  href : String
  shortcut : String
  deriving Repr, DecidableEq

/-- The `Config` dataclass of the source: a page title and the list of
navigation pages. -/
structure Config where
  title : String
  pages : List Page
  deriving Repr, DecidableEq

/-- One structured field-level message of a marshmallow `ValidationError`
(`err.messages`): which field failed and how.  `pageErr i e` is an error `e`
reported under index `i` of the `pages` list. -/
inductive FieldErr where
  | missingField (fld : String)
  | notAString (fld : String)
  | lengthMustEqual1 (fld : String)
  | notAList (fld : String)
  | unknownField (fld : String)
  | invalidInputType
  | pageErr (idx : Nat) (e : FieldErr)
  deriving Repr, DecidableEq

/-- Marshmallow loading of one required `str` field: missing key yields a
`missingField` message, a non-string value a `notAString` message. -/
def validateStrField (fld : String) (r : Option Raw) : Except (List FieldErr) String :=
  match r with
  | none => .error [.missingField fld]
  | some (.str s) => .ok s
  | some _ => .error [.notAString fld]

/-- Marshmallow loading of the `shortcut` field of `Page`: a required string
additionally constrained by `Length(equal=1)`. -/
def validateShortcut (r : Option Raw) : Except (List FieldErr) String :=
  match r with
  | none => .error [.missingField "shortcut"]
  | some (.str s) =>
      if s.length = 1 then .ok s else .error [.lengthMustEqual1 "shortcut"]
  | some _ => .error [.notAString "shortcut"]

/-- Marshmallow error aggregation for two independently validated parts: both
succeed, or all collected messages of the failing parts are reported. -/
def collect2 {α β : Type} : Except (List FieldErr) α → Except (List FieldErr) β →
    Except (List FieldErr) (α × β)
  | .ok a, .ok b => .ok (a, b)
  | .error e1, .error e2 => .error (e1 ++ e2)
  | .error e1, .ok _ => .error e1
  | .ok _, .error e2 => .error e2

/-- Keys of a mapping that are not fields of the `Page` schema; marshmallow
(default `unknown=RAISE`) reports each as an `unknownField` error. -/
def pageUnknowns (kvs : List (String × Raw)) : List FieldErr :=
  ((kvs.map Prod.fst).filter
    (fun k => !(k == "title") && !(k == "href") && !(k == "shortcut"))).map .unknownField

/-- Marshmallow loading of one `Page` (`PageSchema.load` applied by the nested
field of `ConfigSchema`): a mapping with string `title` and `href` and a
length-1 string `shortcut`; all field errors are collected. -/
def loadPage (r : Raw) : Except (List FieldErr) Page :=
  match r with
  | .dict kvs =>
    match collect2 (collect2 (validateStrField "title" ((Raw.dict kvs).get? "title"))
                             (validateStrField "href" ((Raw.dict kvs).get? "href")))
                   (validateShortcut ((Raw.dict kvs).get? "shortcut")) with
    | .ok ((t, h), s) =>
        match pageUnknowns kvs with
        | [] => .ok ⟨t, h, s⟩
        | u :: us => .error (u :: us)
    | .error es => .error (pageUnknowns kvs ++ es)
  | _ => .error [.invalidInputType]

/-- Marshmallow loading of the elements of the `pages` list, each at its
index: errors of every invalid element are aggregated, tagged by index. -/
def collectPages (i : Nat) : List Raw → Except (List FieldErr) (List Page)
  | [] => .ok []
  | x :: xs =>
    match loadPage x, collectPages (i + 1) xs with
    | .ok p, .ok ps => .ok (p :: ps)
    | .error es, .ok _ => .error (es.map (.pageErr i))
    | .ok _, .error es2 => .error es2
    | .error es, .error es2 => .error (es.map (.pageErr i) ++ es2)

/-- Marshmallow loading of the required `pages` field of `Config`: a list of
pages; a missing key or a non-list value is a field error on `pages`. -/
def loadPages (r : Option Raw) : Except (List FieldErr) (List Page) :=
  match r with
  | none => .error [.missingField "pages"]
  | some (.list xs) => collectPages 0 xs
  | some _ => .error [.notAList "pages"]

/-- Keys of a mapping that are not fields of the `Config` schema. -/
def configUnknowns (kvs : List (String × Raw)) : List FieldErr :=
  ((kvs.map Prod.fst).filter
    (fun k => !(k == "title") && !(k == "pages"))).map .unknownField

/-- The validator: `ConfigSchema.load` of the source.  Attempts a structured
decode of raw data into a `Config`, collecting every field-level constraint
violation (missing field, wrong type, length mismatch, unknown field) before
reporting, rather than failing on the first. -/
def loadConfig (r : Raw) : Except (List FieldErr) Config :=
  match r with
  | .dict kvs =>
    match collect2 (validateStrField "title" ((Raw.dict kvs).get? "title"))
                   (loadPages ((Raw.dict kvs).get? "pages")) with
    | .ok (t, ps) =>
        match configUnknowns kvs with
        | [] => .ok ⟨t, ps⟩
        | u :: us => .error (u :: us)
    | .error es => .error (configUnknowns kvs ++ es)
  | _ => .error [.invalidInputType]

/-- The contents of the source file, as each deserializer would read them:
`jsonValue` is what `json.load` yields, `yamlValue` what `yaml.safe_load`
yields.  Keeping both lets the two parsers of `getConfigParser` stay
distinct deserialize-then-validate pipelines. -/
structure FileContents where
  jsonValue : Raw
  yamlValue : Raw

/-- The JSON closure defined inside the parser selector (source lines 58-61):
`ConfigSchema.load(json.load(file_contents))`. -/
def jsonParser (fc : FileContents) : Except (List FieldErr) Config :=
  loadConfig fc.jsonValue

/-- The YAML closure defined inside the parser selector (source lines 63-66):
`ConfigSchema.load(yaml.safe_load(file_contents))`. -/
def yamlParser (fc : FileContents) : Except (List FieldErr) Config :=
  loadConfig fc.yamlValue

/-- The fixed extension-to-format table `parse_ext_to_format`; `none` models
the `KeyError` raised on an unknown extension. -/
def parse_ext_to_format (ext : String) : Option String :=
  if ext == "json" then some "json"
  else if ext == "yaml" then some "yaml"
  else if ext == "yml" then some "yaml"
  else none

/-- The parser selector of the source (lines 57-71), `getConfigParser` here:
a dictionary lookup with exactly the keys `json` and `yaml`; `none` models
the `KeyError` raised on any other format token. -/
def getConfigParser (file_format : String) :
    Option (FileContents → Except (List FieldErr) Config) :=
  if file_format == "json" then some jsonParser
  else if file_format == "yaml" then some yamlParser
  else none

/-- A Jinja template by name (`Template` dataclass of the source); `load`
fetches `{name}.jinja` from the package loader. -/
structure Template where
  name : String
  deriving Repr, DecidableEq

/-- Modelled from the spec: the repository ships the Jinja template files
`index.html.jinja` and `index.js.jinja` with the `splugh` package
(`PackageLoader('splugh')`), but those template files are not present under
the available source tree.  Per the spec the renderer substitutes the
fields of the `Config` into fixed template text: the HTML page carries the
config title and one navigation entry per page linking its `href`, labelled
with its `title`, with its `shortcut` as access key. -/
def renderNavEntry (p : Page) : String :=
  "<a href=\"" ++ p.href ++ "\" accesskey=\"" ++ p.shortcut ++ "\">" ++
    p.title ++ "</a>"

/-- Modelled from the spec: the fixed `index.html.jinja` template text with
the config fields substituted. -/
def renderIndexHtml (c : Config) : String :=
  "<!DOCTYPE html><html><head><title>" ++ c.title ++
    "</title></head><body><h1>" ++ c.title ++ "</h1><nav>" ++
    String.join (c.pages.map renderNavEntry) ++ "</nav></body></html>"

/-- Modelled from the spec: the fixed `index.js.jinja` template text with the
config fields substituted (the shortcut keys and target links of the pages). -/
def renderIndexJs (c : Config) : String :=
  "const shortcuts = [" ++
    String.join (c.pages.map fun p => "\x22" ++ p.shortcut ++ "\x22,") ++
    "];\nconst hrefs = [" ++
    String.join (c.pages.map fun p => "\x22" ++ p.href ++ "\x22,") ++ "];\n"

/-- The text rendered for one named template: `template.load(env).render
(config=config)`.  The environment and loader are fixed, so the text is a
function of the template name and the config alone. -/
def renderTemplate (t : Template) (config : Config) : String :=
  if t.name == "index.html" then renderIndexHtml config
  else if t.name == "index.js" then renderIndexJs config
  else ""

/-- One observable side effect of a run of `main`, in program order. -/
inductive Event where
  | rmtree (dir : String)
  | printErr (msg : String)
  | printErrors (errs : List FieldErr)
  | openFile (path : String)
  | mkdir (dir : String)
  | writeFile (path : String) (content : String)
  deriving Repr, DecidableEq

/-- How a run of `main` terminates: a returned exit code, or an uncaught
exception (`KeyError` from a failed dictionary lookup, `IndexError` from
`rsplit('.', 1)[1]` on an extensionless path) aborting the process. -/
inductive Outcome where
  | exitCode (code : Nat)
  | keyError (key : String)
  | indexError
  deriving Repr, DecidableEq

/-- Whether a POSIX path is absolute: it starts with a slash. -/
def isAbsolute (s : String) : Bool :=
  s.toList.head? == some '/'

/-- `os.path.join(a, b)`: `b` if absolute, else concatenation with a
separator. -/
def pathJoin (a b : String) : String :=
  if isAbsolute b then b else a ++ "/" ++ b

/-- `os.path.abspath(s)` relative to the current working directory
(normalization elided; no claim depends on it). -/
def absPath (cwd s : String) : String :=
  if isAbsolute s then s else cwd ++ "/" ++ s

/-- `s.rsplit('.', 1)[1]`: the part of the string after its last dot; `none`
models the `IndexError` raised by the `[1]` when the string contains no dot
(the split then has a single element). -/
def rsplitExt (s : String) : Option String :=
  if s.toList.contains '.' then
    some (String.mk ((s.toList.reverse.takeWhile (fun c => c != '.')).reverse))
  else none

/-- The parsed command-line arguments of a run (`args` in `main`). -/
structure Args where
  source : String
  output_directory : Option String
  format : Option String
  force : Bool

/-- The environment a run observes: the working directory, whether
`os.path.exists` holds of the resolved output directory, and the contents of
the source file. -/
structure Env where
  cwd : String
  outDirExists : Bool
  sourceContents : FileContents

/-- Lines 139–141 of `main`: the format token is `args.format` when given,
else `parse_ext_to_format(file_path.rsplit('.', 1)[1])`; an error is the
uncaught exception aborting the run. -/
def resolveFormat (args : Args) (file_path : String) : Except Outcome String :=
  match args.format with
  | some f => .ok f
  | none =>
    match rsplitExt file_path with
    | none => .error .indexError
    | some ext =>
      match parse_ext_to_format ext with
      | none => .error (.keyError ext)
      | some f => .ok f

/-- Lines 142–147 of `main`: the output directory is
`os.path.join(os.getcwd(), args.output_directory or 'splugh_dist')`. -/
def resolveOutDir (args : Args) (cwd : String) : String :=
  pathJoin cwd (args.output_directory.getD "splugh_dist")

/-- `generate_jinja_templates`: for each of the two fixed templates, open
`os.path.join(out_dir, name)` and write the rendered text. -/
def generate_jinja_templates (config : Config) (out_dir : String) : List Event :=
  [Template.mk "index.html", Template.mk "index.js"].map fun t =>
    .writeFile (pathJoin out_dir t.name) (renderTemplate t config)

/-- Lines 157–167 of `main`: open the source file, look up the parser for the
format token (an unknown token raises `KeyError` after the file is already
open), run it; a `ValidationError` prints the structured messages and returns
1; otherwise `os.mkdir` the output directory, render, and return 0. -/
def parseAndRender (file_path out_dir file_format : String) (fc : FileContents) :
    List Event × Outcome :=
  match getConfigParser file_format with
  | none => ([.openFile file_path], .keyError file_format)
  | some p =>
    match p fc with
    | .error errs => ([.openFile file_path, .printErrors errs], .exitCode 1)
    | .ok config =>
        ([.openFile file_path, .mkdir out_dir] ++
          generate_jinja_templates config out_dir, .exitCode 0)

/-- The CLI driver `main`, as the ordered side effects it performs and its
outcome. -/
def main (args : Args) (env : Env) : List Event × Outcome :=
  let file_path := absPath env.cwd args.source
  match resolveFormat args file_path with
  | .error o => ([], o)
  | .ok file_format =>
    let out_dir := resolveOutDir args env.cwd
    if env.outDirExists then
      if args.force then
        let rest := parseAndRender file_path out_dir file_format env.sourceContents
        (.rmtree out_dir :: rest.1, rest.2)
      else
        ([.printErr (out_dir ++ " already exists. Refusing to operate.")],
          .exitCode 2)
    else
      parseAndRender file_path out_dir file_format env.sourceContents

/-- Whether a directory exists after a trace of events, given whether it
existed initially: `rmtree` removes it, `mkdir` creates it. -/
def dirExistsAfter (d : String) (init : Bool) : List Event → Bool
  | [] => init
  | .rmtree d2 :: es => dirExistsAfter d (if d2 == d then false else init) es
  | .mkdir d2 :: es => dirExistsAfter d (if d2 == d then true else init) es
  | _ :: es => dirExistsAfter d init es

/-- File paths written by a trace, in order. -/
def writtenPaths : List Event → List String
  | [] => []
  | .writeFile p _ :: es => p :: writtenPaths es
  | _ :: es => writtenPaths es

/-- File contents written by a trace, in order. -/
def writtenContents : List Event → List String
  | [] => []
  | .writeFile _ c :: es => c :: writtenContents es
  | _ :: es => writtenContents es

/-- Directories created by a trace, in order. -/
def madeDirs : List Event → List String
  | [] => []
  | .mkdir d :: es => d :: madeDirs es
  | _ :: es => madeDirs es

/-- A well-formed raw config, used as concrete sample input. -/
def sampleRaw : Raw :=
  .dict [("title", .str "Home"),
         ("pages", .list [.dict [("title", .str "A"), ("href", .str "/a"),
           ("shortcut", .str "a")]])]

/-- Sample source-file contents deserializing to `sampleRaw`. -/
def sampleFC : FileContents := ⟨sampleRaw, sampleRaw⟩

/-- The Config that `sampleRaw` validates to. -/
def sampleConfig : Config := ⟨"Home", [⟨"A", "/a", "a"⟩]⟩

/-- Sample source-file contents deserializing to a non-mapping value. -/
def emptyFC : FileContents := ⟨.null, .null⟩

/-- Sample source-file contents deserializing to an empty mapping, which
fails validation with both fields missing. -/
def badFC : FileContents := ⟨.dict [], .dict []⟩

/-! ### Lemmas about the validator -/

theorem collect2_ok {α β : Type} {a : Except (List FieldErr) α}
    {b : Except (List FieldErr) β} {x : α} {y : β}
    (h : collect2 a b = .ok (x, y)) : a = .ok x ∧ b = .ok y := by
  cases a <;> cases b <;> simp [collect2] at h
  simp [h]

theorem validateShortcut_ok {r : Option Raw} {s : String}
    (h : validateShortcut r = .ok s) : s.length = 1 := by
  cases r with
  | none => simp [validateShortcut] at h
  | some v =>
    cases v with
    | str t =>
      by_cases hl : t.length = 1
      · simp [validateShortcut, hl] at h
        subst h; exact hl
      · simp [validateShortcut, hl] at h
    | int n => simp [validateShortcut] at h
    | list xs => simp [validateShortcut] at h
    | dict kvs => simp [validateShortcut] at h
    | null => simp [validateShortcut] at h

theorem loadPage_ok {r : Raw} {p : Page} (h : loadPage r = .ok p) :
    p.shortcut.length = 1 := by
  unfold loadPage at h
  split at h
  · rename_i kvs
    split at h
    · rename_i t h2 s heq
      split at h
      · cases h
        exact validateShortcut_ok (collect2_ok heq).2
      · cases h
    · cases h
  · cases h

theorem collectPages_ok {i : Nat} {xs : List Raw} {ps : List Page}
    (h : collectPages i xs = .ok ps) : ∀ p ∈ ps, ∃ x, loadPage x = .ok p := by
  induction xs generalizing i ps with
  | nil =>
    simp [collectPages] at h
    subst h; simp
  | cons x xs ih =>
    unfold collectPages at h
    split at h
    · rename_i p1 ps1 heq1 heq2
      cases h
      intro p hp
      rcases List.mem_cons.mp hp with hp | hp
      · exact ⟨x, hp ▸ heq1⟩
      · exact ih heq2 p hp
    · cases h
    · cases h
    · cases h

theorem loadPages_ok {o : Option Raw} {ps : List Page}
    (h : loadPages o = .ok ps) : ∀ p ∈ ps, ∃ x, loadPage x = .ok p := by
  cases o with
  | none => simp [loadPages] at h
  | some v =>
    cases v with
    | list xs => exact collectPages_ok h
    | str s => simp [loadPages] at h
    | int n => simp [loadPages] at h
    | dict kvs => simp [loadPages] at h
    | null => simp [loadPages] at h

theorem loadConfig_ok {r : Raw} {c : Config} (h : loadConfig r = .ok c) :
    ∀ p ∈ c.pages, p.shortcut.length = 1 := by
  unfold loadConfig at h
  split at h
  · rename_i kvs
    split at h
    · rename_i t ps heq
      split at h
      · cases h
        intro p hp
        obtain ⟨x, hx⟩ := loadPages_ok (collect2_ok heq).2 p hp
        exact loadPage_ok hx
      · cases h
    · cases h
  · cases h

theorem validateStrField_err {f : String} {r : Option Raw} {es : List FieldErr}
    (h : validateStrField f r = .error es) : es ≠ [] := by
  cases r with
  | none => simp [validateStrField] at h; simp [← h]
  | some v => cases v <;> simp [validateStrField] at h <;> simp [← h]

theorem validateShortcut_err {r : Option Raw} {es : List FieldErr}
    (h : validateShortcut r = .error es) : es ≠ [] := by
  cases r with
  | none => simp [validateShortcut] at h; simp [← h]
  | some v =>
    cases v with
    | str t =>
      by_cases hl : t.length = 1
      · simp [validateShortcut, hl] at h
      · simp [validateShortcut, hl] at h; simp [← h]
    | int n => simp [validateShortcut] at h; simp [← h]
    | list xs => simp [validateShortcut] at h; simp [← h]
    | dict kvs => simp [validateShortcut] at h; simp [← h]
    | null => simp [validateShortcut] at h; simp [← h]

theorem collect2_err {α β : Type} {a : Except (List FieldErr) α}
    {b : Except (List FieldErr) β} {es : List FieldErr}
    (h : collect2 a b = .error es)
    (ha : ∀ e, a = .error e → e ≠ []) (hb : ∀ e, b = .error e → e ≠ []) :
    es ≠ [] := by
  cases a with
  | ok x =>
    cases b with
    | ok y => simp [collect2] at h
    | error e2 =>
      simp [collect2] at h
      exact h ▸ hb e2 rfl
  | error e1 =>
    cases b with
    | ok y =>
      simp [collect2] at h
      exact h ▸ ha e1 rfl
    | error e2 =>
      simp [collect2] at h
      subst h
      simp [List.append_eq_nil]
      intro h1 _
      exact ha e1 rfl h1

theorem loadPage_err {r : Raw} {es : List FieldErr}
    (h : loadPage r = .error es) : es ≠ [] := by
  unfold loadPage at h
  split at h
  · rename_i kvs
    split at h
    · split at h
      · cases h
      · cases h; simp
    · rename_i es1 heq
      cases h
      have h1 : es1 ≠ [] := by
        refine collect2_err heq ?_ (fun e he => validateShortcut_err he)
        intro e he
        exact collect2_err he (fun e2 he2 => validateStrField_err he2)
          (fun e2 he2 => validateStrField_err he2)
      simp [List.append_eq_nil]
      intro _ h2
      exact h1 h2
  · cases h; simp

theorem collectPages_err {i : Nat} {xs : List Raw} {es : List FieldErr}
    (h : collectPages i xs = .error es) : es ≠ [] := by
  induction xs generalizing i es with
  | nil => simp [collectPages] at h
  | cons x xs ih =>
    unfold collectPages at h
    split at h
    · cases h
    · rename_i es1 heq1 heq2
      cases h
      simp [List.map_eq_nil_iff]
      exact loadPage_err heq1
    · rename_i es2 heq1 heq2
      cases h
      exact ih heq2
    · rename_i es1 es2 heq1 heq2
      cases h
      simp [List.append_eq_nil, List.map_eq_nil_iff]
      intro h1 _
      exact loadPage_err heq1 h1

theorem loadPages_err {o : Option Raw} {es : List FieldErr}
    (h : loadPages o = .error es) : es ≠ [] := by
  cases o with
  | none => simp [loadPages] at h; simp [← h]
  | some v =>
    cases v with
    | list xs => exact collectPages_err h
    | str s => simp [loadPages] at h; simp [← h]
    | int n => simp [loadPages] at h; simp [← h]
    | dict kvs => simp [loadPages] at h; simp [← h]
    | null => simp [loadPages] at h; simp [← h]

theorem loadConfig_err {r : Raw} {es : List FieldErr}
    (h : loadConfig r = .error es) : es ≠ [] := by
  unfold loadConfig at h
  split at h
  · rename_i kvs
    split at h
    · split at h
      · cases h
      · cases h; simp
    · rename_i es1 heq
      cases h
      have h1 : es1 ≠ [] :=
        collect2_err heq (fun e he => validateStrField_err he)
          (fun e he => loadPages_err he)
      simp [List.append_eq_nil]
      intro _ h2
      exact h1 h2
  · cases h; simp

theorem loadConfig_dict (kvs : List (String × Raw)) :
    loadConfig (.dict kvs) =
      match collect2 (validateStrField "title" ((Raw.dict kvs).get? "title"))
            (loadPages ((Raw.dict kvs).get? "pages")) with
      | .ok (t, ps) =>
          (match configUnknowns kvs with
           | [] => .ok ⟨t, ps⟩
           | u :: us => .error (u :: us))
      | .error es => .error (configUnknowns kvs ++ es) := rfl

theorem loadPage_dict (kvs : List (String × Raw)) :
    loadPage (.dict kvs) =
      match collect2 (collect2 (validateStrField "title" ((Raw.dict kvs).get? "title"))
                       (validateStrField "href" ((Raw.dict kvs).get? "href")))
            (validateShortcut ((Raw.dict kvs).get? "shortcut")) with
      | .ok ((t, h), s) =>
          (match pageUnknowns kvs with
           | [] => .ok ⟨t, h, s⟩
           | u :: us => .error (u :: us))
      | .error es => .error (pageUnknowns kvs ++ es) := rfl

theorem loadConfig_missing_title {kvs : List (String × Raw)}
    (h : (Raw.dict kvs).get? "title" = none) :
    ∃ es, loadConfig (.dict kvs) = .error es ∧
      FieldErr.missingField "title" ∈ es := by
  have hv : validateStrField "title" ((Raw.dict kvs).get? "title") =
      .error [.missingField "title"] := by rw [h]; rfl
  rw [loadConfig_dict, hv]
  cases hp : loadPages ((Raw.dict kvs).get? "pages") with
  | ok ps => exact ⟨_, rfl, by simp⟩
  | error es2 => exact ⟨_, rfl, by simp⟩

theorem loadConfig_missing_pages {kvs : List (String × Raw)}
    (h : (Raw.dict kvs).get? "pages" = none) :
    ∃ es, loadConfig (.dict kvs) = .error es ∧
      FieldErr.missingField "pages" ∈ es := by
  have hv : loadPages ((Raw.dict kvs).get? "pages") =
      .error [.missingField "pages"] := by rw [h]; rfl
  rw [loadConfig_dict, hv]
  cases ht : validateStrField "title" ((Raw.dict kvs).get? "title") with
  | ok t => exact ⟨_, rfl, by simp⟩
  | error e1 => exact ⟨_, rfl, by simp⟩

theorem loadPage_bad_shortcut {kvs : List (String × Raw)} {s : String}
    (hget : (Raw.dict kvs).get? "shortcut" = some (.str s))
    (hlen : s.length = 0 ∨ s.length = 2) :
    ∃ es, loadPage (.dict kvs) = .error es ∧
      FieldErr.lengthMustEqual1 "shortcut" ∈ es := by
  have hne : ¬ s.length = 1 := by rcases hlen with h | h <;> omega
  have hv : validateShortcut ((Raw.dict kvs).get? "shortcut") =
      .error [.lengthMustEqual1 "shortcut"] := by
    rw [hget]; simp [validateShortcut, hne]
  rw [loadPage_dict, hv]
  cases hA : collect2 (validateStrField "title" ((Raw.dict kvs).get? "title"))
      (validateStrField "href" ((Raw.dict kvs).get? "href")) with
  | ok th => exact ⟨_, rfl, by simp⟩
  | error e1 => exact ⟨_, rfl, by simp⟩

theorem loadPage_good_shortcut (t h2 s : String) (hl : s.length = 1) :
    loadPage (.dict [("title", .str t), ("href", .str h2), ("shortcut", .str s)]) =
      .ok ⟨t, h2, s⟩ := by
  simp [loadPage, Raw.get?, List.lookup, validateStrField, validateShortcut,
    pageUnknowns, collect2, hl]

/-! ### Claims about the validator -/

/-- Claim C4: a Page whose shortcut has length 0 or 2 fails validation with a
length-constraint error; a shortcut of length exactly 1 passes the shortcut
constraint (and a fully well-formed page loads); and every Page of a
successfully produced Config has a shortcut of length 1. -/
theorem shortcut_length_validation :
    (∀ (kvs : List (String × Raw)) (s : String),
        (Raw.dict kvs).get? "shortcut" = some (.str s) →
        s.length = 0 ∨ s.length = 2 →
        ∃ es, loadPage (.dict kvs) = .error es ∧
          FieldErr.lengthMustEqual1 "shortcut" ∈ es) ∧
    (∀ t h s : String, s.length = 1 →
        validateShortcut (some (.str s)) = .ok s ∧
        loadPage (.dict [("title", .str t), ("href", .str h),
          ("shortcut", .str s)]) = .ok ⟨t, h, s⟩) ∧
    (∀ (r : Raw) (c : Config), loadConfig r = .ok c →
        ∀ p ∈ c.pages, p.shortcut.length = 1) := by
  refine ⟨fun kvs s hget hlen => loadPage_bad_shortcut hget hlen,
          fun t h s hl => ⟨by simp [validateShortcut, hl],
            loadPage_good_shortcut t h s hl⟩,
          fun r c hc => loadConfig_ok hc⟩

/-- Witness for C4 at concrete pages with shortcuts of length 2 and 1. -/
theorem shortcut_length_validation_witness :
    (∃ es, loadPage (.dict [("title", .str "A"), ("href", .str "/a"),
        ("shortcut", .str "ab")]) = .error es ∧
      FieldErr.lengthMustEqual1 "shortcut" ∈ es) ∧
    loadPage (.dict [("title", .str "A"), ("href", .str "/a"),
        ("shortcut", .str "a")]) = .ok ⟨"A", "/a", "a"⟩ :=
  ⟨shortcut_length_validation.1 _ "ab" rfl (Or.inr rfl),
   (shortcut_length_validation.2.1 "A" "/a" "a" rfl).2⟩

/-- Claim C5: a raw mapping missing `title` or `pages` fails validation with
an error naming the missing field; both missing fields are reported together
(aggregation rather than first-failure); and the validator never succeeds
partially: every raw input either yields a valid Config or a nonempty
aggregated error report. -/
theorem validator_missing_fields_atomicity :
    (∀ kvs : List (String × Raw), (Raw.dict kvs).get? "title" = none →
      ∃ es, loadConfig (.dict kvs) = .error es ∧
        FieldErr.missingField "title" ∈ es) ∧
    (∀ kvs : List (String × Raw), (Raw.dict kvs).get? "pages" = none →
      ∃ es, loadConfig (.dict kvs) = .error es ∧
        FieldErr.missingField "pages" ∈ es) ∧
    loadConfig (.dict []) =
      .error [.missingField "title", .missingField "pages"] ∧
    (∀ r : Raw, (∃ c, loadConfig r = .ok c) ∨
      (∃ es, loadConfig r = .error es ∧ es ≠ [])) := by
  refine ⟨fun kvs h => loadConfig_missing_title h,
          fun kvs h => loadConfig_missing_pages h, rfl, fun r => ?_⟩
  cases hr : loadConfig r with
  | ok c => exact Or.inl ⟨c, rfl⟩
  | error es => exact Or.inr ⟨es, rfl, loadConfig_err hr⟩

/-- Witness for C5 at concrete mappings missing `title` resp. `pages`. -/
theorem validator_missing_fields_atomicity_witness :
    (∃ es, loadConfig (.dict [("pages", .list [])]) = .error es ∧
       FieldErr.missingField "title" ∈ es) ∧
    (∃ es, loadConfig (.dict [("title", .str "T")]) = .error es ∧
       FieldErr.missingField "pages" ∈ es) :=
  ⟨validator_missing_fields_atomicity.1 _ rfl,
   validator_missing_fields_atomicity.2.1 _ rfl⟩

/-! ### Lemmas about the CLI driver -/

theorem main_of_format {args : Args} {env : Env} {f : String}
    (hfmt : resolveFormat args (absPath env.cwd args.source) = .ok f) :
    main args env =
      if env.outDirExists then
        if args.force then
          (Event.rmtree (resolveOutDir args env.cwd) ::
            (parseAndRender (absPath env.cwd args.source)
              (resolveOutDir args env.cwd) f env.sourceContents).1,
           (parseAndRender (absPath env.cwd args.source)
              (resolveOutDir args env.cwd) f env.sourceContents).2)
        else
          ([.printErr (resolveOutDir args env.cwd ++
              " already exists. Refusing to operate.")], .exitCode 2)
      else
        parseAndRender (absPath env.cwd args.source)
          (resolveOutDir args env.cwd) f env.sourceContents := by
  simp [main, hfmt]

theorem parseAndRender_unknown {f : String}
    (hunk : getConfigParser f = none) (fp od : String) (fc : FileContents) :
    parseAndRender fp od f fc = ([.openFile fp], .keyError f) := by
  simp [parseAndRender, hunk]

theorem parseAndRender_invalid {f : String}
    {p : FileContents → Except (List FieldErr) Config}
    (hp : getConfigParser f = some p) {fc : FileContents}
    {errs : List FieldErr} (herr : p fc = .error errs) (fp od : String) :
    parseAndRender fp od f fc =
      ([.openFile fp, .printErrors errs], .exitCode 1) := by
  simp [parseAndRender, hp, herr]

theorem parseAndRender_valid {f : String}
    {p : FileContents → Except (List FieldErr) Config}
    (hp : getConfigParser f = some p) {fc : FileContents} {c : Config}
    (hc : p fc = .ok c) (fp od : String) :
    parseAndRender fp od f fc =
      ([.openFile fp, .mkdir od,
        .writeFile (pathJoin od "index.html") (renderIndexHtml c),
        .writeFile (pathJoin od "index.js") (renderIndexJs c)],
        .exitCode 0) := by
  simp [parseAndRender, hp, hc, generate_jinja_templates, renderTemplate]

/-! ### Claims about the CLI driver, the parser selector and the renderer -/

/-- Claim C2 (amended): when the resolved output directory exists, `--force`
is not given, and format resolution succeeds, the run prints the user-facing
refusal message to the error stream and returns exit code 2 with no other
side effects (the trace holds nothing but the message: the source file is
never opened, nothing is deleted, created or written).  The amendment adds
the format-resolution hypothesis: resolution happens before the directory
check, so a run whose format resolution raises aborts with that exception
instead of exiting 2. -/
theorem existing_noforce_exits2 (args : Args) (env : Env) (f : String)
    (hex : env.outDirExists = true) (hforce : args.force = false)
    (hfmt : resolveFormat args (absPath env.cwd args.source) = .ok f) :
    main args env =
      ([.printErr (resolveOutDir args env.cwd ++
          " already exists. Refusing to operate.")], .exitCode 2) := by
  rw [main_of_format hfmt]
  simp [hex, hforce]

/-- Counterexample to C2 as stated: with the output directory existing and no
`--force`, a run whose source path has no extension and no `--type` flag
aborts with an uncaught `IndexError` during format resolution instead of
printing the message and exiting 2. -/
theorem existing_noforce_counterexample :
    main ⟨"config", none, none, false⟩ ⟨"/tmp", true, ⟨.null, .null⟩⟩ =
      ([], .indexError) ∧
    (main ⟨"config", none, none, false⟩ ⟨"/tmp", true, ⟨.null, .null⟩⟩).2 ≠
      .exitCode 2 :=
  ⟨rfl, by decide⟩

/-- Witness for C2 (amended) at a concrete run with a recognized extension. -/
theorem existing_noforce_exits2_witness :
    main ⟨"config.yaml", none, none, false⟩ ⟨"/tmp", true, ⟨.null, .null⟩⟩ =
      ([.printErr (resolveOutDir ⟨"config.yaml", none, none, false⟩ "/tmp" ++
          " already exists. Refusing to operate.")], .exitCode 2) :=
  existing_noforce_exits2 _ _ "yaml" rfl rfl rfl

/-- Counterexample to C1 as stated: a run with unrecognized `--type xml`
against an existing output directory with `--force` first deletes the
directory and then opens the source file, and only then fails with the
lookup error — file I/O does occur before the failure. -/
theorem unknown_type_counterexample :
    main ⟨"config.json", none, some "xml", true⟩ ⟨"/tmp", true, ⟨.null, .null⟩⟩ =
      ([.rmtree "/tmp/splugh_dist", .openFile "/tmp/config.json"],
        .keyError "xml") := rfl

/-- Claim C1 (amended): a run with an unrecognized `--type` value either
exits 2 first (existing output directory without `--force`, never reaching
the lookup), or fails with the lookup error for that token with the open of
the source file as its last event — i.e. after any directory deletion and
after the source file is opened — and in every case no output directory is
created and no output file is written. -/
theorem unknown_type_fails_after_open (args : Args) (env : Env) (f : String)
    (hf : args.format = some f) (hunk : getConfigParser f = none) :
    (env.outDirExists = true ∧ args.force = false ∧
      main args env =
        ([.printErr (resolveOutDir args env.cwd ++
            " already exists. Refusing to operate.")], .exitCode 2)) ∨
    ((main args env).2 = .keyError f ∧
      (main args env).1.getLast? =
        some (.openFile (absPath env.cwd args.source)) ∧
      madeDirs (main args env).1 = [] ∧
      writtenPaths (main args env).1 = []) := by
  have hfmt : resolveFormat args (absPath env.cwd args.source) = .ok f := by
    simp [resolveFormat, hf]
  rw [main_of_format hfmt]
  cases hex : env.outDirExists with
  | false =>
    refine Or.inr ?_
    simp [parseAndRender_unknown hunk, madeDirs, writtenPaths]
  | true =>
    cases hforce : args.force with
    | false => exact Or.inl ⟨rfl, rfl, by simp⟩
    | true =>
      refine Or.inr ?_
      simp [parseAndRender_unknown hunk, madeDirs, writtenPaths]

/-- Witness for C1 (amended) at a concrete run with `--type xml`. -/
theorem unknown_type_fails_after_open_witness :
    (((⟨"/tmp", false, ⟨.null, .null⟩⟩ : Env).outDirExists = true ∧
      (⟨"config.json", none, some "xml", false⟩ : Args).force = false ∧
      main ⟨"config.json", none, some "xml", false⟩ ⟨"/tmp", false, ⟨.null, .null⟩⟩ =
        ([.printErr (resolveOutDir ⟨"config.json", none, some "xml", false⟩ "/tmp" ++
            " already exists. Refusing to operate.")], .exitCode 2)) ∨
    ((main ⟨"config.json", none, some "xml", false⟩ ⟨"/tmp", false, ⟨.null, .null⟩⟩).2 =
        .keyError "xml" ∧
      (main ⟨"config.json", none, some "xml", false⟩ ⟨"/tmp", false, ⟨.null, .null⟩⟩).1.getLast? =
        some (.openFile (absPath "/tmp" "config.json")) ∧
      madeDirs (main ⟨"config.json", none, some "xml", false⟩ ⟨"/tmp", false, ⟨.null, .null⟩⟩).1 = [] ∧
      writtenPaths (main ⟨"config.json", none, some "xml", false⟩ ⟨"/tmp", false, ⟨.null, .null⟩⟩).1 = [])) :=
  unknown_type_fails_after_open _ _ "xml" rfl rfl

/-- Claim C3: with `--force` against an existing output directory and a
config that validates, the run first recursively deletes the old directory,
then opens the source, creates the output directory afresh and writes the
two rendered files, returning exit code 0 — the deletion strictly precedes
every write. -/
theorem force_overwrite_renders (args : Args) (env : Env) (f : String)
    (p : FileContents → Except (List FieldErr) Config) (c : Config)
    (hex : env.outDirExists = true) (hforce : args.force = true)
    (hfmt : resolveFormat args (absPath env.cwd args.source) = .ok f)
    (hp : getConfigParser f = some p)
    (hc : p env.sourceContents = .ok c) :
    main args env =
      ([.rmtree (resolveOutDir args env.cwd),
        .openFile (absPath env.cwd args.source),
        .mkdir (resolveOutDir args env.cwd),
        .writeFile (pathJoin (resolveOutDir args env.cwd) "index.html")
          (renderIndexHtml c),
        .writeFile (pathJoin (resolveOutDir args env.cwd) "index.js")
          (renderIndexJs c)], .exitCode 0) := by
  rw [main_of_format hfmt]
  simp [hex, hforce, parseAndRender_valid hp hc]

/-- Witness for C3 at a concrete run over a valid sample config. -/
theorem force_overwrite_renders_witness :
    main ⟨"config.yaml", none, some "yaml", true⟩ ⟨"/tmp", true, sampleFC⟩ =
      ([.rmtree (resolveOutDir ⟨"config.yaml", none, some "yaml", true⟩ "/tmp"),
        .openFile (absPath "/tmp" "config.yaml"),
        .mkdir (resolveOutDir ⟨"config.yaml", none, some "yaml", true⟩ "/tmp"),
        .writeFile (pathJoin (resolveOutDir ⟨"config.yaml", none, some "yaml", true⟩ "/tmp") "index.html")
          (renderIndexHtml sampleConfig),
        .writeFile (pathJoin (resolveOutDir ⟨"config.yaml", none, some "yaml", true⟩ "/tmp") "index.js")
          (renderIndexJs sampleConfig)], .exitCode 0) :=
  force_overwrite_renders _ _ "yaml" yamlParser sampleConfig rfl rfl rfl rfl rfl

/-- Claim C6: a run that reaches parsing (format resolved to a known token,
directory check passed) whose source validates with errors prints the
structured field-level error messages to the error stream and returns exit
code 1. -/
theorem validation_failure_exits1 (args : Args) (env : Env) (f : String)
    (p : FileContents → Except (List FieldErr) Config) (errs : List FieldErr)
    (hfmt : resolveFormat args (absPath env.cwd args.source) = .ok f)
    (hp : getConfigParser f = some p)
    (hdir : env.outDirExists = false ∨ args.force = true)
    (herr : p env.sourceContents = .error errs) :
    (main args env).2 = .exitCode 1 ∧
    Event.printErrors errs ∈ (main args env).1 := by
  rw [main_of_format hfmt]
  rcases hdir with h | h
  · simp [h, parseAndRender_invalid hp herr]
  · cases hex : env.outDirExists <;>
      simp [hex, h, parseAndRender_invalid hp herr]

/-- Witness for C6 at a concrete run whose source is an empty mapping. -/
theorem validation_failure_exits1_witness :
    (main ⟨"config.yaml", none, some "yaml", false⟩ ⟨"/tmp", false, badFC⟩).2 =
      .exitCode 1 ∧
    Event.printErrors [.missingField "title", .missingField "pages"] ∈
      (main ⟨"config.yaml", none, some "yaml", false⟩ ⟨"/tmp", false, badFC⟩).1 :=
  validation_failure_exits1 _ _ "yaml" yamlParser
    [.missingField "title", .missingField "pages"] rfl rfl (Or.inl rfl) rfl

/-- Claim C9: with `--force` against an existing output directory and a
config that fails validation, the old directory has already been deleted, the
run exits 1, and no directory is recreated: afterwards the output directory
does not exist — the error path is not side-effect free. -/
theorem force_invalid_config_no_outdir (args : Args) (env : Env) (f : String)
    (p : FileContents → Except (List FieldErr) Config) (errs : List FieldErr)
    (hex : env.outDirExists = true) (hforce : args.force = true)
    (hfmt : resolveFormat args (absPath env.cwd args.source) = .ok f)
    (hp : getConfigParser f = some p)
    (herr : p env.sourceContents = .error errs) :
    main args env =
      ([.rmtree (resolveOutDir args env.cwd),
        .openFile (absPath env.cwd args.source),
        .printErrors errs], .exitCode 1) ∧
    dirExistsAfter (resolveOutDir args env.cwd) true (main args env).1 =
      false := by
  have hm : main args env =
      ([.rmtree (resolveOutDir args env.cwd),
        .openFile (absPath env.cwd args.source),
        .printErrors errs], .exitCode 1) := by
    rw [main_of_format hfmt]
    simp [hex, hforce, parseAndRender_invalid hp herr]
  refine ⟨hm, ?_⟩
  rw [hm]
  simp [dirExistsAfter]

/-- Witness for C9 at a concrete run whose source is an empty mapping. -/
theorem force_invalid_config_no_outdir_witness :
    main ⟨"config.yaml", none, some "yaml", true⟩ ⟨"/tmp", true, badFC⟩ =
      ([.rmtree (resolveOutDir ⟨"config.yaml", none, some "yaml", true⟩ "/tmp"),
        .openFile (absPath "/tmp" "config.yaml"),
        .printErrors [.missingField "title", .missingField "pages"]],
        .exitCode 1) ∧
    dirExistsAfter (resolveOutDir ⟨"config.yaml", none, some "yaml", true⟩ "/tmp")
      true (main ⟨"config.yaml", none, some "yaml", true⟩ ⟨"/tmp", true, badFC⟩).1 =
      false :=
  force_invalid_config_no_outdir _ _ "yaml" yamlParser
    [.missingField "title", .missingField "pages"] rfl rfl rfl rfl rfl

/-- Claim C10: a run without `--type` whose resolved source path contains no
dot aborts with an uncaught `IndexError` from `rsplit('.', 1)[1]` before any
side effect, and in particular never returns an exit code. -/
theorem extensionless_source_indexerror (args : Args) (env : Env)
    (hf : args.format = none)
    (hnd : (absPath env.cwd args.source).toList.contains '.' = false) :
    main args env = ([], .indexError) ∧
    ∀ n, (main args env).2 ≠ .exitCode n := by
  have h1 : rsplitExt (absPath env.cwd args.source) = none := by
    unfold rsplitExt
    rw [hnd]
    simp
  have hfm : resolveFormat args (absPath env.cwd args.source) =
      .error .indexError := by
    simp [resolveFormat, hf, h1]
  have hm : main args env = ([], .indexError) := by
    simp [main, hfm]
  exact ⟨hm, fun n => by rw [hm]; simp⟩

/-- Witness for C10 at a concrete dot-free source path, even with the output
directory existing. -/
theorem extensionless_source_indexerror_witness :
    main ⟨"config", none, none, false⟩ ⟨"/tmp", true, emptyFC⟩ =
      ([], .indexError) ∧
    (main ⟨"config", none, none, false⟩ ⟨"/tmp", true, emptyFC⟩).2 ≠
      .exitCode 2 :=
  ⟨(extensionless_source_indexerror _ _ rfl (by decide)).1,
   (extensionless_source_indexerror _ _ rfl (by decide)).2 2⟩

/-- Counterexample to C7 as stated: the selector raises a lookup error for
the format token `yml` rather than returning the YAML routine; a run with
`--type yml` aborts with that `KeyError`. -/
theorem parser_selector_yml_counterexample :
    getConfigParser "yml" = none ∧
    (main ⟨"c.json", none, some "yml", false⟩ ⟨"/tmp", false, emptyFC⟩).2 =
      .keyError "yml" :=
  ⟨rfl, rfl⟩

/-- Claim C7 (amended): for the tokens `json` and `yaml` the selector returns
the corresponding deserialize-then-validate routine, and for every other
token — including `yml` — it fails with a lookup error; `yml` is recognized
only by the extension table, which maps it to the token `yaml`. -/
theorem parser_selector_tokens :
    getConfigParser "json" = some jsonParser ∧
    getConfigParser "yaml" = some yamlParser ∧
    (∀ fc, jsonParser fc = loadConfig fc.jsonValue) ∧
    (∀ fc, yamlParser fc = loadConfig fc.yamlValue) ∧
    (∀ t, t ≠ "json" → t ≠ "yaml" → getConfigParser t = none) ∧
    parse_ext_to_format "json" = some "json" ∧
    parse_ext_to_format "yaml" = some "yaml" ∧
    parse_ext_to_format "yml" = some "yaml" ∧
    (∀ e, e ≠ "json" → e ≠ "yaml" → e ≠ "yml" →
      parse_ext_to_format e = none) := by
  refine ⟨rfl, rfl, fun _ => rfl, fun _ => rfl, ?_, rfl, rfl, rfl, ?_⟩
  · intro t h1 h2
    simp [getConfigParser, h1, h2]
  · intro e h1 h2 h3
    simp [parse_ext_to_format, h1, h2, h3]

/-- Witness for C7 (amended) at the concrete unknown token `xml`. -/
theorem parser_selector_tokens_witness :
    getConfigParser "xml" = none ∧ parse_ext_to_format "xml" = none :=
  ⟨parser_selector_tokens.2.2.2.2.1 "xml" (by decide) (by decide),
   parser_selector_tokens.2.2.2.2.2.2.2.2 "xml" (by decide) (by decide)
     (by decide)⟩

/-- Claim C8: the renderer writes exactly two files, `index.html` and
`index.js`, into the output directory, and the written contents are a
function of the Config alone: rendering the same Config into two different
directories yields byte-identical file contents. -/
theorem renderer_two_files_deterministic :
    (∀ (c : Config) (d : String),
      generate_jinja_templates c d =
        [.writeFile (pathJoin d "index.html") (renderIndexHtml c),
         .writeFile (pathJoin d "index.js") (renderIndexJs c)]) ∧
    (∀ (c : Config) (d : String),
      writtenPaths (generate_jinja_templates c d) =
        [pathJoin d "index.html", pathJoin d "index.js"]) ∧
    (∀ (c : Config) (d1 d2 : String),
      writtenContents (generate_jinja_templates c d1) =
        writtenContents (generate_jinja_templates c d2)) :=
  ⟨fun _ _ => rfl, fun _ _ => rfl, fun _ _ _ => rfl⟩

end Splugh
